import Mathlib

/-!
Shallow embedding of the ccode terminal launcher (ccode.py): selection model,
configuration handling, session controller, surface-safe painter and the
pulse animation renderer, together with theorems checking the specification's
claims against these definitions.
-/

namespace CCode

/-- Catalog entry as seen by the grouping function: either field may be
missing or non-string (modelled as none), mirroring the isinstance guards. -/
structure CatalogItem where
  owned_by : Option String
  id : Option String
deriving DecidableEq

/-- Catalog record as returned by fetch_models: both fields are strings. -/
structure CatalogRecord where
  owned_by : String
  id : String
deriving DecidableEq

def recToItem (r : CatalogRecord) : CatalogItem :=
  ⟨some r.owned_by, some r.id⟩

/-- Code-point lexicographic comparison on character lists, the order
Python uses to compare strings. -/
def charListLe : List Char → List Char → Bool
  | [], _ => true
  | _ :: _, [] => false
  | a :: as, b :: bs =>
    if a < b then true else if b < a then false else charListLe as bs

/-- Strict code-point lexicographic comparison on character lists. -/
def charListLt : List Char → List Char → Bool
  | [], [] => false
  | [], _ :: _ => true
  | _ :: _, [] => false
  | a :: as, b :: bs =>
    if a < b then true else if b < a then false else charListLt as bs

/-- Python string comparison (code-point lexicographic), as a relation. -/
def strle (a b : String) : Prop := charListLe a.data b.data = true

/-- Strict Python string comparison. -/
def strlt (a b : String) : Prop := charListLt a.data b.data = true

instance : DecidableRel strle := fun a b => by
  unfold strle; infer_instance

instance : DecidableRel strlt := fun a b => by
  unfold strlt; infer_instance

/-- Python str.strip(): drop whitespace from both ends. -/
def pyStrip (s : String) : String :=
  String.mk
    (((s.data.dropWhile Char.isWhitespace).reverse.dropWhile
        Char.isWhitespace).reverse)

/-- Python dict setdefault-and-append: append v to the list at key k,
creating the key at the end of the dict if absent. -/
def dictAppend (d : List (String × List String)) (k v : String) :
    List (String × List String) :=
  match d with
  | [] => [(k, [v])]
  | p :: rest =>
    if p.1 = k then (p.1, p.2 ++ [v]) :: rest else p :: dictAppend rest k v

/-- One iteration of the build_models_by_owner loop: skip entries whose
owned_by or id is not a string. -/
def addItem (d : List (String × List String)) (it : CatalogItem) :
    List (String × List String) :=
  match it.owned_by, it.id with
  | some o, some i => dictAppend d o i
  | _, _ => d

/-- build_models_by_owner from ccode.py: group ids by owner, then sort each
owner's id list (Python sorted keeps duplicates). -/
def build_models_by_owner (models_data : Option (List CatalogItem)) :
    List (String × List String) :=
  ((models_data.getD []).foldl addItem []).map
    (fun p => (p.1, List.insertionSort strle p.2))

/-- owner_options from ccode.py: sorted owner names. -/
def owner_options (models_by_owner : List (String × List String)) :
    List String :=
  List.insertionSort strle (models_by_owner.map Prod.fst)

/-- model_options from ccode.py: the id list for an owner, empty if unknown. -/
def model_options (models_by_owner : List (String × List String))
    (owner : String) : List String :=
  ((models_by_owner.find? (fun p => p.1 = owner)).map Prod.snd).getD []

/-- Python truthiness test on an optional string: None and the empty string
are falsy. -/
def entryFalsy : Option String → Bool
  | none => true
  | some s => s == ""

/-- Python truthiness as the positive test. -/
def truthyStr (o : Option String) : Bool := !(entryFalsy o)

/-- The index-selection step shared by the two branches of cycle_main_option:
first occurrence of current if present, else -1 for a forward step and 0 for
a backward step, then a Python-style modular move. Assumes l nonempty. -/
def advanceVal (l : List String) (current : Option String) (d : Int) : String :=
  let index : Int :=
    match current with
    | some v => if v ∈ l then (l.indexOf v : Int) else if d > 0 then -1 else 0
    | none => if d > 0 then -1 else 0
  l.getD (((index + d) % (l.length : Int)).toNat) ""

/-- The spec's advance operation: on an empty list return the input value
unchanged, otherwise step as the code does. -/
def advance (l : List String) (current : Option String) (d : Int) :
    Option String :=
  if l = [] then current else some (advanceVal l current d)

/-- Claim-side starting index for advance: the actual index when present,
else len-1 for a forward step and 0 for a backward step. -/
def startIndexSpec (l : List String) (current : Option String) (d : Int) :
    Int :=
  match current with
  | some v =>
    if v ∈ l then (l.indexOf v : Int)
    else if d > 0 then (l.length : Int) - 1 else 0
  | none => if d > 0 then (l.length : Int) - 1 else 0

inductive ModelKey
  | opus
  | sonnet
  | haiku
deriving DecidableEq

structure ModelEntry where
  owned_by : Option String
  id : Option String
deriving DecidableEq

/-- The three fixed model slots of the configuration. -/
structure Models where
  opus : ModelEntry
  sonnet : ModelEntry
  haiku : ModelEntry
deriving DecidableEq

def Models.get : Models → ModelKey → ModelEntry
  | m, .opus => m.opus
  | m, .sonnet => m.sonnet
  | m, .haiku => m.haiku

def Models.set : Models → ModelKey → ModelEntry → Models
  | m, .opus, e => { m with opus := e }
  | m, .sonnet, e => { m with sonnet := e }
  | m, .haiku, e => { m with haiku := e }

def MODEL_KEYS : List ModelKey := [.opus, .sonnet, .haiku]

def modelKeyUpper : ModelKey → String
  | .opus => "OPUS"
  | .sonnet => "SONNET"
  | .haiku => "HAIKU"

inductive ToggleKey
  | telemetry
  | cost_warnings
  | nonessential
deriving DecidableEq

/-- The toggle dict key names from ccode.py. -/
def ToggleKey.name : ToggleKey → String
  | .telemetry => "CLAUDE_CODE_ENABLE_TELEMETRY"
  | .cost_warnings => "DISABLE_COST_WARNINGS"
  | .nonessential => "CLAUDE_CODE_DISABLE_NONESSENTIAL_TRAFFIC"

/-- The three fixed toggles of the configuration, integer valued. -/
structure Toggles where
  telemetry : Int
  cost_warnings : Int
  nonessential : Int
deriving DecidableEq

def Toggles.get : Toggles → ToggleKey → Int
  | t, .telemetry => t.telemetry
  | t, .cost_warnings => t.cost_warnings
  | t, .nonessential => t.nonessential

def Toggles.set : Toggles → ToggleKey → Int → Toggles
  | t, .telemetry, v => { t with telemetry := v }
  | t, .cost_warnings, v => { t with cost_warnings := v }
  | t, .nonessential, v => { t with nonessential := v }

def DEFAULT_TOGGLES : Toggles := ⟨0, 1, 1⟩

structure Config where
  base_url : String
  api_key : String
  models : Models
  toggles : Toggles
deriving DecidableEq

def DEFAULT_BASE_URL : String := "http://127.0.0.1:8317"

def default_config : Config :=
  { base_url := DEFAULT_BASE_URL
    api_key := ""
    models := ⟨⟨none, none⟩, ⟨none, none⟩, ⟨none, none⟩⟩
    toggles := DEFAULT_TOGGLES }

/-- mask_secret from ccode.py. -/
def mask_secret (value : String) : String :=
  if value = "" then "<unset>"
  else if value.length ≤ 8 then String.mk (List.replicate value.length '*')
  else String.mk (value.data.take 4) ++ "..." ++
    String.mk (value.data.drop (value.length - 4))

/-- update_model_owner from ccode.py (configuration part): set the slot's
owner (None when falsy) and always reset its id to None. -/
def update_model_owner (c : Config) (key : ModelKey) (owner : Option String) :
    Config :=
  { c with models :=
      c.models.set key ⟨if entryFalsy owner then none else owner, none⟩ }

/-- update_model_id from ccode.py (configuration part). -/
def update_model_id (c : Config) (key : ModelKey) (owner : Option String)
    (model_id : Option String) : Config :=
  if truthyStr owner && truthyStr model_id then
    { c with models := c.models.set key ⟨owner, model_id⟩ }
  else
    { c with models :=
        c.models.set key ⟨if entryFalsy owner then none else owner, none⟩ }

/-- Is the configured (owned_by, id) pair present in the fetched catalog? -/
def pairInCatalog (models : List CatalogRecord) (e : ModelEntry) : Bool :=
  models.any (fun r => e.owned_by == some r.owned_by && e.id == some r.id)

/-- One slot of the validate_models loop: reset to (None, None) when the
slot is falsy or its pair is absent from the catalog, but only if it
previously held some non-None value; the Bool reports a change. -/
def validateEntry (models : List CatalogRecord) (e : ModelEntry) :
    ModelEntry × Bool :=
  if entryFalsy e.owned_by || entryFalsy e.id || !(pairInCatalog models e) then
    if e.owned_by ≠ none ∨ e.id ≠ none then (⟨none, none⟩, true)
    else (e, false)
  else (e, false)

/-- validate_models from ccode.py: reconcile all three slots against the
fetched catalog, reporting whether anything changed. -/
def validate_models (c : Config) (models : List CatalogRecord) :
    Config × Bool :=
  ({ c with models :=
      ⟨(validateEntry models c.models.opus).1,
       (validateEntry models c.models.sonnet).1,
       (validateEntry models c.models.haiku).1⟩ },
   ((validateEntry models c.models.opus).2 ||
    (validateEntry models c.models.sonnet).2 ||
    (validateEntry models c.models.haiku).2))

/-- validate_launch_requirements from ccode.py. -/
def validate_launch_requirements (c : Config) : Option String :=
  if pyStrip c.base_url = "" ∨ pyStrip c.api_key = "" then
    some "Base URL and API key are required."
  else if entryFalsy (c.models.get .opus).owned_by ||
      entryFalsy (c.models.get .opus).id ||
      entryFalsy (c.models.get .sonnet).owned_by ||
      entryFalsy (c.models.get .sonnet).id ||
      entryFalsy (c.models.get .haiku).owned_by ||
      entryFalsy (c.models.get .haiku).id then
    some "OPUS, SONNET, and HAIKU selections are required."
  else none

/-- UI/session state owned by CursesApp, with a counter instrumenting the
save_config collaborator calls. -/
structure AppState where
  config : Config
  models_data : Option (List CatalogRecord)
  models_by_owner : List (String × List String)
  status_message : String
  main_focus_row : Nat
  main_focus_field : Nat
  save_count : Nat
deriving DecidableEq

/-- update_models_by_owner from ccode.py. -/
def update_models_by_owner (st : AppState) : AppState :=
  { st with models_by_owner :=
      build_models_by_owner (st.models_data.map (fun l => l.map recToItem)) }

/-- update_model_owner at state level: mutate the configuration and persist. -/
def update_model_owner_state (st : AppState) (key : ModelKey)
    (owner : Option String) : AppState :=
  { st with config := update_model_owner st.config key owner
            save_count := st.save_count + 1 }

/-- update_model_id at state level: mutate the configuration and persist. -/
def update_model_id_state (st : AppState) (key : ModelKey)
    (owner : Option String) (model_id : Option String) : AppState :=
  { st with config := update_model_id st.config key owner model_id
            save_count := st.save_count + 1 }

/-- cycle_main_option from ccode.py: cycle the focused slot's owner or id. -/
def cycle_main_option (st : AppState) (direction : Int) : AppState :=
  let key := MODEL_KEYS.getD st.main_focus_row ModelKey.opus
  if st.main_focus_field = 0 then
    let owners := owner_options st.models_by_owner
    if owners = [] then st
    else
      let current := (st.config.models.get key).owned_by
      update_model_owner_state st key (some (advanceVal owners current direction))
  else
    let owner := (st.config.models.get key).owned_by
    if entryFalsy owner then st
    else
      let models := model_options st.models_by_owner (owner.getD "")
      if models = [] then st
      else
        let current_id := (st.config.models.get key).id
        update_model_id_state st key owner
          (some (advanceVal models current_id direction))

/-- fetch_and_store_models from ccode.py, with the network collaborator's
outcome passed in as an explicit Except value. -/
def fetch_and_store_models (st : AppState) (base_url api_key : String)
    (save : Bool) (result : Except String (List CatalogRecord)) :
    AppState × Option String :=
  match result with
  | .error e => (st, some e)
  | .ok models =>
    let cfg := { st.config with base_url := base_url, api_key := api_key }
    let vc := validate_models cfg models
    let st := { st with
      config := vc.1
      models_data := some models
      save_count := st.save_count + (if save || vc.2 then 1 else 0) }
    (update_models_by_owner st, none)

/-- refresh_models from ccode.py, the fetch outcome passed in explicitly. -/
def refresh_models (st : AppState)
    (result : Except String (List CatalogRecord)) : AppState :=
  let st := { st with status_message := "" }
  let base_url := pyStrip st.config.base_url
  let api_key := pyStrip st.config.api_key
  if base_url = "" ∨ api_key = "" then
    { st with status_message :=
        "Base URL and API key are required. Open config with c." }
  else
    let r := fetch_and_store_models st base_url api_key true result
    match r.2 with
    | some e => { r.1 with status_message := e }
    | none => { r.1 with status_message := "Models refreshed." }

/-- One toggle flip from handle_config_key: 0 when currently truthy, else 1. -/
def flipToggle (c : Config) (t : ToggleKey) : Config :=
  { c with toggles := c.toggles.set t (if c.toggles.get t ≠ 0 then 0 else 1) }

def applyFlips (c : Config) (flips : List ToggleKey) : Config :=
  flips.foldl flipToggle c

/-- Terminal surface: bounded cell grid carrying a character and an
attribute per cell. -/
structure Surface where
  height : Nat
  width : Nat
  cells : Nat → Nat → Char × Int

/-- The in-bounds write primitive (stdscr.addstr): overwrite the cells of
row y from column x with the given text and attribute. -/
def writeText (s : Surface) (y x : Nat) (t : List Char) (attr : Int) :
    Surface :=
  { s with cells := fun r c =>
      if r = y ∧ x ≤ c ∧ c < x + t.length then (t.getD (c - x) ' ', attr)
      else s.cells r c }

/-- The clipped write after the negative-column clamp of addstr_safe. -/
def addstrClamped (s : Surface) (y x : Int) (text : List Char) (attr : Int) :
    Surface :=
  if (s.width : Int) ≤ x then s
  else if (s.width : Int) - x ≤ 0 then s
  else writeText s y.toNat x.toNat (text.take ((s.width : Int) - x).toNat) attr

/-- addstr_safe from ccode.py: clip a text write to the surface bounds,
never failing for any row/column. -/
def addstr_safe (s : Surface) (y x : Int) (text : List Char) (attr : Int) :
    Surface :=
  if y < 0 ∨ (s.height : Int) ≤ y then s
  else
    addstrClamped s y (if x < 0 then 0 else x)
      (if x < 0 then text.drop (-x).toNat else text) attr

/-- One draw request issued by a renderer to addstr_safe: position, glyph,
color pair index (none when color is off) and bold flag. -/
structure DrawOp where
  y : Int
  x : Int
  ch : Char
  colorIdx : Option Nat
  bold : Bool
deriving DecidableEq

def maxLineLen (lines : List String) : Nat :=
  (lines.map String.length).foldl max 0

/-- Horizontal centering anchor used by the renderers. -/
def renderBaseX (width : Int) (lines : List String) : Int :=
  max 0 ((width - (maxLineLen lines : Int)).fdiv 2)

/-- render_style_pulse from ccode.py as the list of draw requests it issues:
every non-space glyph is drawn at its unshifted position; with color on and
a nonempty palette the color index and bold flag follow the gradient-pulse
formulas, otherwise the attribute stays empty. -/
def render_style_pulse (lines : List String) (useColor : Bool) (nPairs : Nat)
    (frame : Nat) (startY : Int) (width : Int) : List DrawOp :=
  lines.enum.flatMap fun rl =>
    rl.2.toList.enum.filterMap fun cc =>
      if cc.2 = ' ' then none
      else
        some { y := startY + (rl.1 : Int)
               x := renderBaseX width lines + (cc.1 : Int)
               ch := cc.2
               colorIdx :=
                 if useColor && (nPairs != 0) then
                   some ((cc.1 + rl.1 + frame / 3) % nPairs)
                 else none
               bold :=
                 if useColor && (nPairs != 0) then
                   decide ((frame + cc.1 + rl.1) % 20 < 10)
                 else false }

/-- Claim-side list of glyph cells of a logo: (row, col, glyph) for every
non-space character. -/
def glyphCells (lines : List String) : List (Nat × Nat × Char) :=
  lines.enum.flatMap fun rl =>
    rl.2.toList.enum.filterMap fun cc =>
      if cc.2 = ' ' then none else some (rl.1, cc.1, cc.2)

/-- JSON values as parsed by json.loads (Python bool is checked before int,
so the two are distinct constructors here). -/
inductive Json where
  | null : Json
  | bool : Bool → Json
  | num : Int → Json
  | str : String → Json
  | arr : List Json → Json
  | obj : List (String × Json) → Json

/-- Python dict get on a parsed JSON object. -/
def jget (fields : List (String × Json)) (k : String) : Option Json :=
  (fields.find? (fun p => p.1 = k)).map Prod.snd

/-- One string field of load_config: keep the stored value only when it is
a string. -/
def loadStr (fields : List (String × Json)) (k : String) (cur : String) :
    String :=
  match jget fields k with
  | some (.str s) => s
  | _ => cur

/-- One model slot of load_config: when the stored entry is a dict, both
fields are overwritten (non-strings become None); otherwise keep current. -/
def loadModelEntry (ms : List (String × Json)) (name : String)
    (cur : ModelEntry) : ModelEntry :=
  match jget ms name with
  | some (.obj e) =>
    { owned_by := match jget e "owned_by" with
        | some (.str s) => some s
        | _ => none
      id := match jget e "id" with
        | some (.str s) => some s
        | _ => none }
  | _ => cur

/-- One toggle of load_config: bools become 0/1, ints are kept only when
they are 0 or 1, anything else keeps the default. -/
def loadToggle (ts : List (String × Json)) (name : String) (cur : Int) :
    Int :=
  match jget ts name with
  | some (.bool b) => if b then 1 else 0
  | some (.num n) => if n = 0 ∨ n = 1 then n else cur
  | _ => cur

/-- The models section of load_config: when the stored value is a dict,
rebuild all three slots from it, otherwise keep the current slots. -/
def loadModels (fields : List (String × Json)) (cur : Models) : Models :=
  match jget fields "models" with
  | some (.obj ms) =>
    { opus := loadModelEntry ms "opus" cur.opus
      sonnet := loadModelEntry ms "sonnet" cur.sonnet
      haiku := loadModelEntry ms "haiku" cur.haiku }
  | _ => cur

/-- The toggles section of load_config. -/
def loadToggles (fields : List (String × Json)) (cur : Toggles) : Toggles :=
  match jget fields "toggles" with
  | some (.obj ts) =>
    { telemetry := loadToggle ts "CLAUDE_CODE_ENABLE_TELEMETRY" cur.telemetry
      cost_warnings := loadToggle ts "DISABLE_COST_WARNINGS" cur.cost_warnings
      nonessential :=
        loadToggle ts "CLAUDE_CODE_DISABLE_NONESSENTIAL_TRAFFIC"
          cur.nonessential }
  | _ => cur

/-- load_config from ccode.py: substitute defaults for a missing/unreadable
file (none) or malformed fields. -/
def load_config (data : Option Json) : Config :=
  match data with
  | some (.obj fields) =>
    { base_url := loadStr fields "base_url" default_config.base_url
      api_key := loadStr fields "api_key" default_config.api_key
      models := loadModels fields default_config.models
      toggles := loadToggles fields default_config.toggles }
  | _ => default_config

/-- Environment variable name of a model slot's override. -/
def envModelName (k : ModelKey) : String :=
  "ANTHROPIC_DEFAULT_" ++ modelKeyUpper k ++ "_MODEL"

/-- Set one environment variable (later writes shadow earlier ones). -/
def envSet (e : String → Option String) (k v : String) :
    String → Option String :=
  fun q => if q = k then some v else e q

/-- The model-slot step of build_env: set the override variable only when
the slot's id is truthy. -/
def envSetModel (c : Config) (k : ModelKey) (e : String → Option String) :
    String → Option String :=
  match (c.models.get k).id with
  | some s => if s = "" then e else envSet e (envModelName k) s
  | none => e

/-- An empty ambient environment. -/
def emptyEnv : String → Option String := fun _ => none

/-- build_env from ccode.py: base URL and auth token, one override variable
per truthy model slot, then one variable per toggle, over an ambient
environment. -/
def build_env (c : Config) (masked : Bool) (base : String → Option String) :
    String → Option String :=
  envSet (envSet (envSet
    (envSetModel c .haiku (envSetModel c .sonnet (envSetModel c .opus
      (envSet (envSet base "ANTHROPIC_BASE_URL" c.base_url)
        "ANTHROPIC_AUTH_TOKEN"
        (if masked then mask_secret c.api_key else c.api_key)))))
    (ToggleKey.name .telemetry) (toString (c.toggles.get .telemetry)))
    (ToggleKey.name .cost_warnings) (toString (c.toggles.get .cost_warnings)))
    (ToggleKey.name .nonessential) (toString (c.toggles.get .nonessential))

/-! Concrete inputs used by scenario conjuncts, counterexamples and
witnesses. -/

/-- A catalog holding the same (owner, id) record twice. -/
def dupCatalog : List CatalogItem :=
  [⟨some "x", some "a"⟩, ⟨some "x", some "a"⟩]

/-- A small catalog whose ids arrive out of order. -/
def witCatalog : List CatalogItem :=
  [⟨some "x", some "b"⟩, ⟨some "x", some "a"⟩]

/-- A tiny concrete surface. -/
def surf0 : Surface := ⟨2, 3, fun _ _ => ('.', 0)⟩

/-- Credentials present, opus slot missing only its id, other slots fully
resolved. -/
def cfgLaunchPartial : Config :=
  { base_url := "http://h"
    api_key := "k"
    models := ⟨⟨some "a", none⟩, ⟨some "b", some "m1"⟩, ⟨some "c", some "m2"⟩⟩
    toggles := DEFAULT_TOGGLES }

/-- Main screen, slot 0 focused on the owner field, owner index holding
anthropic and openai, current owner anthropic. -/
def scenAdvance : AppState :=
  { config := { default_config with
      models := ⟨⟨some "anthropic", none⟩, ⟨none, none⟩, ⟨none, none⟩⟩ }
    models_data := some [⟨"anthropic", "claude-3"⟩, ⟨"openai", "gpt"⟩]
    models_by_owner := [("anthropic", ["claude-3"]), ("openai", ["gpt"])]
    status_message := ""
    main_focus_row := 0
    main_focus_field := 0
    save_count := 0 }

/-- A slot bound to (acme, x1) with valid credentials, before a refresh. -/
def scenReconcile : AppState :=
  { config := { base_url := "http://h"
                api_key := "k"
                models := ⟨⟨some "acme", some "x1"⟩, ⟨none, none⟩, ⟨none, none⟩⟩
                toggles := DEFAULT_TOGGLES }
    models_data := none
    models_by_owner := []
    status_message := ""
    main_focus_row := 0
    main_focus_field := 0
    save_count := 0 }

/-- A state whose owner index is empty. -/
def emptyOwnerState : AppState :=
  { config := default_config
    models_data := none
    models_by_owner := []
    status_message := ""
    main_focus_row := 0
    main_focus_field := 0
    save_count := 0 }

/-- Stored configuration whose opus slot has an empty-string id. -/
def dataEmptyId : Option Json :=
  some (.obj [("models", .obj
    [("opus", .obj [("owned_by", .str "a"), ("id", .str "")])])])

/-! Helper lemmas shared by the claim theorems. -/

theorem models_get_set (m : Models) (k : ModelKey) (e : ModelEntry) :
    (m.set k e).get k = e := by
  cases k <;> rfl

/-- Claim C10: for every slot and every owner value (including the owner
already stored), setting or cycling a slot's owner always resets that slot's
id to null. -/
theorem c10_owner_set_resets_id :
    (∀ (c : Config) (k : ModelKey) (o : Option String),
        ((update_model_owner c k o).models.get k).id = none) ∧
    (∀ (st : AppState) (d : Int), st.main_focus_field = 0 →
        owner_options st.models_by_owner ≠ [] →
        ((cycle_main_option st d).config.models.get
            (MODEL_KEYS.getD st.main_focus_row ModelKey.opus)).id = none) := by
  constructor
  · intro c k o
    unfold update_model_owner
    rw [models_get_set]
  · intro st d hf ho
    unfold cycle_main_option
    rw [if_pos hf, if_neg ho]
    unfold update_model_owner_state update_model_owner
    rw [models_get_set]

/-- Witness for C10 at concrete inputs. -/
theorem c10_owner_set_resets_id_witness :
    ((update_model_owner default_config .opus (some "anthropic")).models.get
        .opus).id = none ∧
    ((cycle_main_option scenAdvance 1).config.models.get
        (MODEL_KEYS.getD scenAdvance.main_focus_row ModelKey.opus)).id = none :=
  ⟨c10_owner_set_resets_id.1 default_config .opus (some "anthropic"),
   c10_owner_set_resets_id.2 scenAdvance 1 rfl (by decide)⟩

/-- Claim C6: advance on an empty list is a no-op, and cycling with an empty
owner index leaves the whole state unchanged (no mutation, no signal). -/
theorem c6_advance_empty_noop :
    (∀ (v : Option String) (d : Int), advance [] v d = v) ∧
    (∀ (st : AppState) (d : Int), st.models_by_owner = [] →
        cycle_main_option st d = st) := by
  constructor
  · intro v d; rfl
  · intro st d h
    unfold cycle_main_option
    rw [h]
    split
    · rfl
    · dsimp only
      split
      · rfl
      · rfl

/-- Witness for C6 at concrete inputs. -/
theorem c6_advance_empty_noop_witness :
    advance [] (some "v") 1 = some "v" ∧
    cycle_main_option emptyOwnerState 1 = emptyOwnerState :=
  ⟨c6_advance_empty_noop.1 (some "v") 1,
   c6_advance_empty_noop.2 emptyOwnerState 1 rfl⟩

/-- Claim C7: when the catalog fetch fails during a refresh, the error text
becomes the status message and everything else — configuration, stored
catalog, owner index, persistence count — is exactly as before. -/
theorem c7_refresh_failure_unchanged (st : AppState) (msg : String)
    (h1 : pyStrip st.config.base_url ≠ "")
    (h2 : pyStrip st.config.api_key ≠ "") :
    refresh_models st (.error msg) = { st with status_message := msg } := by
  unfold refresh_models fetch_and_store_models
  simp [h1, h2]

/-- Witness for C7 at concrete inputs. -/
theorem c7_refresh_failure_unchanged_witness :
    refresh_models scenReconcile (.error "HTTP 500: server error") =
      { scenReconcile with status_message := "HTTP 500: server error" } :=
  c7_refresh_failure_unchanged scenReconcile "HTTP 500: server error"
    (by decide) (by decide)

/-- Claim C2: paint is total and clips: a row outside [0, height) is a
no-op; a negative column truncates the text's left edge by its magnitude and
clamps the column to 0; a column at or beyond the width is a no-op; and
otherwise exactly the text truncated to the remaining width is written. -/
theorem c2_addstr_safe_clips (s : Surface) (y x : Int) (text : List Char)
    (attr : Int) :
    ((y < 0 ∨ (s.height : Int) ≤ y) → addstr_safe s y x text attr = s) ∧
    (x < 0 →
      addstr_safe s y x text attr =
        addstr_safe s y 0 (text.drop (-x).toNat) attr) ∧
    (0 ≤ x → (s.width : Int) ≤ x → addstr_safe s y x text attr = s) ∧
    (0 ≤ y → y < (s.height : Int) → 0 ≤ x → x < (s.width : Int) →
      addstr_safe s y x text attr =
        writeText s y.toNat x.toNat
          (text.take ((s.width : Int) - x).toNat) attr) := by
  refine ⟨?_, ?_, ?_, ?_⟩
  · intro h
    unfold addstr_safe
    rw [if_pos h]
  · intro hx
    unfold addstr_safe
    by_cases hy : y < 0 ∨ (s.height : Int) ≤ y
    · rw [if_pos hy, if_pos hy]
    · rw [if_neg hy, if_neg hy, if_pos hx, if_pos hx,
        if_neg (show ¬ (0 : Int) < 0 by omega),
        if_neg (show ¬ (0 : Int) < 0 by omega)]
  · intro hx0 hxw
    unfold addstr_safe
    by_cases hy : y < 0 ∨ (s.height : Int) ≤ y
    · rw [if_pos hy]
    · rw [if_neg hy, if_neg (show ¬ x < 0 by omega)]
      unfold addstrClamped
      rw [if_pos hxw]
  · intro hy0 hyh hx0 hxw
    unfold addstr_safe
    rw [if_neg (show ¬ (y < 0 ∨ (s.height : Int) ≤ y) by omega),
      if_neg (show ¬ x < 0 by omega), if_neg (show ¬ x < 0 by omega)]
    unfold addstrClamped
    rw [if_neg (show ¬ (s.width : Int) ≤ x by omega),
      if_neg (show ¬ (s.width : Int) - x ≤ 0 by omega)]

/-- Witness for C2 at concrete inputs: out-of-range row, negative column,
column past the width, and an in-bounds clipped write. -/
theorem c2_addstr_safe_clips_witness :
    addstr_safe surf0 5 0 ['a'] 0 = surf0 ∧
    addstr_safe surf0 0 (-2) ['a', 'b', 'c'] 0 =
      addstr_safe surf0 0 0 (['a', 'b', 'c'].drop 2) 0 ∧
    addstr_safe surf0 0 3 ['a'] 0 = surf0 ∧
    addstr_safe surf0 0 1 ['a', 'b', 'c'] 7 =
      writeText surf0 0 1 (['a', 'b', 'c'].take 2) 7 :=
  ⟨(c2_addstr_safe_clips surf0 5 0 ['a'] 0).1 (Or.inr (by decide)),
   (c2_addstr_safe_clips surf0 0 (-2) ['a', 'b', 'c'] 0).2.1 (by decide),
   (c2_addstr_safe_clips surf0 0 3 ['a'] 0).2.2.1 (by decide) (by decide),
   (c2_addstr_safe_clips surf0 0 1 ['a', 'b', 'c'] 7).2.2.2 (by decide)
     (by decide) (by decide) (by decide)⟩

theorem int_add_emod_self (a b : Int) : (a + b) % b = a % b := by
  have h := Int.add_mul_emod_self_left a b 1
  rw [mul_one] at h
  exact h

theorem int_neg_one_emod (n : Int) (h : 0 < n) : (-1 : Int) % n = n - 1 :=
  calc (-1 : Int) % n = ((-1) + n) % n := (int_add_emod_self (-1) n).symm
    _ = (n - 1) % n := by ring_nf
    _ = n - 1 := Int.emod_eq_of_lt (by omega) (by omega)

/-- Claim C5: on a nonempty list, advance moves to (start + direction) mod
length where the start is the current value's index when present and,
when absent, len-1 for a forward step and 0 for a backward step, so a
forward step from an absent value lands on the first element and a backward
step lands on the last; the Main-screen scenario cycles anthropic to openai
and wraps back. -/
theorem c5_advance_cyclic (l : List String) (v : Option String) (d : Int)
    (hl : l ≠ []) :
    (advance l v d =
      some (l.getD (((startIndexSpec l v d + d) % (l.length : Int)).toNat) "")) ∧
    ((∀ s, v = some s → s ∉ l) →
      advance l v 1 = some (l.getD 0 "") ∧
      advance l v (-1) = some (l.getD (l.length - 1) "")) ∧
    ((cycle_main_option scenAdvance 1).config.models.get .opus).owned_by =
      some "openai" ∧
    ((cycle_main_option (cycle_main_option scenAdvance 1) 1).config.models.get
        .opus).owned_by = some "anthropic" := by
  have hn : 0 < (l.length : Int) := by
    have h := List.length_pos.mpr hl
    exact_mod_cast h
  have hshift : ∀ e : Int, (-1 + e) % (l.length : Int) =
      ((l.length : Int) - 1 + e) % (l.length : Int) := by
    intro e
    rw [show (l.length : Int) - 1 + e = -1 + e + (l.length : Int) by ring,
      int_add_emod_self]
  have hfirst : (((-1 : Int) + 1) % (l.length : Int)).toNat = 0 := by
    rw [show (-1 : Int) + 1 = 0 by ring, Int.zero_emod]
    rfl
  have hlast : (((0 : Int) + -1) % (l.length : Int)).toNat = l.length - 1 := by
    rw [show (0 : Int) + -1 = -1 by ring, int_neg_one_emod _ hn]
    omega
  refine ⟨?_, ?_, by decide, by decide⟩
  · unfold advance advanceVal startIndexSpec
    rw [if_neg hl]
    dsimp only
    cases v with
    | none =>
      by_cases hd : d > 0
      · simp only [if_pos hd]
        rw [hshift d]
      · simp only [if_neg hd]
    | some s =>
      by_cases hs : s ∈ l
      · simp only [if_pos hs]
      · simp only [if_neg hs]
        by_cases hd : d > 0
        · simp only [if_pos hd]
          rw [hshift d]
        · simp only [if_neg hd]
  · intro habs
    constructor
    · unfold advance advanceVal
      rw [if_neg hl]
      dsimp only
      cases v with
      | none =>
        simp only [if_pos (show (1 : Int) > 0 by norm_num)]
        rw [hfirst]
      | some s =>
        simp only [if_neg (habs s rfl), if_pos (show (1 : Int) > 0 by norm_num)]
        rw [hfirst]
    · unfold advance advanceVal
      rw [if_neg hl]
      dsimp only
      cases v with
      | none =>
        simp only [if_neg (show ¬ (-1 : Int) > 0 by norm_num)]
        rw [hlast]
      | some s =>
        simp only [if_neg (habs s rfl),
          if_neg (show ¬ (-1 : Int) > 0 by norm_num)]
        rw [hlast]

/-- Witness for C5 at concrete inputs: stepping forward from a value absent
from the list lands on the first element. -/
theorem c5_advance_cyclic_witness :
    advance ["a", "b"] (some "z") 1 = some (["a", "b"].getD 0 "") :=
  ((c5_advance_cyclic ["a", "b"] (some "z") 1 (by decide)).2.1
    (by intro s hs; cases hs; decide)).1

/-- Counterexample to claim C4 as stated: with credentials present and no
slot lacking BOTH owner and id (opus has an owner but no id), the claim
predicts the no-error value, yet validate_launch_requirements returns a
reason string. -/
theorem c4_launch_counterexample :
    pyStrip cfgLaunchPartial.base_url ≠ "" ∧
    pyStrip cfgLaunchPartial.api_key ≠ "" ∧
    (∀ k : ModelKey,
      ¬ (entryFalsy (cfgLaunchPartial.models.get k).owned_by = true ∧
         entryFalsy (cfgLaunchPartial.models.get k).id = true)) ∧
    validate_launch_requirements cfgLaunchPartial ≠ none := by
  refine ⟨by decide, by decide, ?_, by decide⟩
  intro k
  cases k <;> decide

/-- Claim C4 amended: validate_launch_requirements returns the credentials
reason when base_url or api_key is empty after trimming; otherwise it
returns the selections reason exactly when some slot lacks an owner or
lacks an id (null or empty), and the no-error value exactly when every slot
has both. -/
theorem c4_launch_requirements (c : Config) :
    ((pyStrip c.base_url = "" ∨ pyStrip c.api_key = "") →
      validate_launch_requirements c =
        some "Base URL and API key are required.") ∧
    (pyStrip c.base_url ≠ "" → pyStrip c.api_key ≠ "" →
      (validate_launch_requirements c = none ↔
        ∀ k : ModelKey,
          entryFalsy (c.models.get k).owned_by = false ∧
          entryFalsy (c.models.get k).id = false) ∧
      (validate_launch_requirements c ≠ none →
        validate_launch_requirements c =
          some "OPUS, SONNET, and HAIKU selections are required.")) := by
  constructor
  · intro h
    unfold validate_launch_requirements
    rw [if_pos h]
  · intro h1 h2
    unfold validate_launch_requirements
    rw [if_neg (not_or.mpr ⟨h1, h2⟩)]
    by_cases hcond : (entryFalsy (c.models.get ModelKey.opus).owned_by ||
        entryFalsy (c.models.get ModelKey.opus).id ||
        entryFalsy (c.models.get ModelKey.sonnet).owned_by ||
        entryFalsy (c.models.get ModelKey.sonnet).id ||
        entryFalsy (c.models.get ModelKey.haiku).owned_by ||
        entryFalsy (c.models.get ModelKey.haiku).id) = true
    · rw [if_pos hcond]
      refine ⟨⟨fun h => Option.noConfusion h, fun hall => ?_⟩, fun _ => rfl⟩
      simp only [Bool.or_eq_true] at hcond
      rcases hcond with ((((h | h) | h) | h) | h) | h
      · rw [(hall .opus).1] at h; exact Bool.noConfusion h
      · rw [(hall .opus).2] at h; exact Bool.noConfusion h
      · rw [(hall .sonnet).1] at h; exact Bool.noConfusion h
      · rw [(hall .sonnet).2] at h; exact Bool.noConfusion h
      · rw [(hall .haiku).1] at h; exact Bool.noConfusion h
      · rw [(hall .haiku).2] at h; exact Bool.noConfusion h
    · rw [if_neg hcond]
      simp only [Bool.or_eq_true, not_or, Bool.not_eq_true] at hcond
      obtain ⟨⟨⟨⟨⟨ho1, ho2⟩, hs1⟩, hs2⟩, hh1⟩, hh2⟩ := hcond
      refine ⟨⟨fun _ => ?_, fun _ => rfl⟩, fun h => absurd rfl h⟩
      intro k
      cases k
      · exact ⟨ho1, ho2⟩
      · exact ⟨hs1, hs2⟩
      · exact ⟨hh1, hh2⟩

/-- Witness for C4's amended theorem at a concrete input: the default
configuration has an empty api_key, so launch is blocked with the
credentials reason. -/
theorem c4_launch_requirements_witness :
    validate_launch_requirements default_config =
      some "Base URL and API key are required." :=
  (c4_launch_requirements default_config).1 (Or.inr (by decide))

theorem validateEntry_reset (models : List CatalogRecord) (e : ModelEntry)
    (habs : ¬ ∃ r ∈ models, some r.owned_by = e.owned_by ∧ some r.id = e.id)
    (hsome : e.owned_by ≠ none ∨ e.id ≠ none) :
    validateEntry models e = (⟨none, none⟩, true) := by
  have hpair : pairInCatalog models e = false := by
    unfold pairInCatalog
    rw [List.any_eq_false]
    intro r hr
    simp only [Bool.and_eq_true, beq_iff_eq, not_and]
    intro h1 h2
    exact habs ⟨r, hr, h1.symm, h2.symm⟩
  unfold validateEntry
  rw [hpair]
  simp [hsome]

/-- Claim C3: after a successful refresh, a slot whose (owner, id) pair is
absent from the new catalog is reset to (null, null) provided it previously
held a non-null owner or id; a slot already holding (null, null) is left
untouched and signals no change; and in the (acme, x1) scenario the slot is
reset with exactly one persistence call for the whole refresh. -/
theorem c3_refresh_reconciles :
    (∀ (c : Config) (models : List CatalogRecord) (k : ModelKey),
        (¬ ∃ r ∈ models, some r.owned_by = (c.models.get k).owned_by ∧
            some r.id = (c.models.get k).id) →
        ((c.models.get k).owned_by ≠ none ∨ (c.models.get k).id ≠ none) →
        (validate_models c models).1.models.get k = ⟨none, none⟩) ∧
    (∀ (models : List CatalogRecord),
        validateEntry models ⟨none, none⟩ = (⟨none, none⟩, false)) ∧
    ((refresh_models scenReconcile (.ok [⟨"acme", "x2"⟩])).config.models.get
        .opus = ⟨none, none⟩ ∧
     (refresh_models scenReconcile (.ok [⟨"acme", "x2"⟩])).save_count = 1) := by
  refine ⟨?_, ?_, by decide, by decide⟩
  · intro c models k habs hsome
    cases k
    · exact congrArg Prod.fst (validateEntry_reset models _ habs hsome)
    · exact congrArg Prod.fst (validateEntry_reset models _ habs hsome)
    · exact congrArg Prod.fst (validateEntry_reset models _ habs hsome)
  · intro models
    rfl

/-- Witness for C3 at concrete inputs: the bound (acme, x1) slot is reset by
validate_models when the catalog lacks the pair. -/
theorem c3_refresh_reconciles_witness :
    (validate_models scenReconcile.config [⟨"acme", "x2"⟩]).1.models.get .opus =
      ⟨none, none⟩ :=
  c3_refresh_reconciles.1 scenReconcile.config [⟨"acme", "x2"⟩] .opus
    (by decide) (by decide)

theorem charListLe_total : ∀ a b : List Char,
    charListLe a b = true ∨ charListLe b a = true
  | [], _ => Or.inl rfl
  | _ :: _, [] => Or.inr rfl
  | a :: as, b :: bs => by
    unfold charListLe
    rcases lt_trichotomy a b with h | h | h
    · left; rw [if_pos h]
    · subst h
      simp only [if_neg (lt_irrefl a)]
      exact charListLe_total as bs
    · right; rw [if_pos h]

theorem charListLe_trans : ∀ a b c : List Char, charListLe a b = true →
    charListLe b c = true → charListLe a c = true
  | [], _, _ => fun _ _ => rfl
  | _ :: _, [], _ => fun h _ => by cases h
  | _ :: _, _ :: _, [] => fun _ h => by cases h
  | a :: as, b :: bs, c :: cs => fun h1 h2 => by
    unfold charListLe at h1 h2 ⊢
    by_cases hab : a < b
    · by_cases hbc : b < c
      · rw [if_pos (lt_trans hab hbc)]
      · by_cases hcb : c < b
        · rw [if_neg hbc, if_pos hcb] at h2
          exact Bool.noConfusion h2
        · have hb : b = c := le_antisymm (le_of_not_lt hcb) (le_of_not_lt hbc)
          subst hb
          rw [if_pos hab]
    · by_cases hba : b < a
      · rw [if_pos hba] at h1
        rw [if_neg hab] at h1
        exact Bool.noConfusion h1
      · have ha : a = b := le_antisymm (le_of_not_lt hba) (le_of_not_lt hab)
        subst ha
        rw [if_neg hab, if_neg hab] at h1
        by_cases hbc : a < c
        · rw [if_pos hbc]
        · by_cases hcb : c < a
          · rw [if_neg hbc, if_pos hcb] at h2
            exact Bool.noConfusion h2
          · rw [if_neg hbc, if_neg hcb] at h2 ⊢
            exact charListLe_trans as bs cs h1 h2

instance : IsTotal String strle :=
  ⟨fun a b => charListLe_total a.data b.data⟩

instance : IsTrans String strle :=
  ⟨fun a b c => charListLe_trans a.data b.data c.data⟩

theorem dictAppend_ne_nil (d : List (String × List String)) (k v : String)
    (h : ∀ p ∈ d, p.2 ≠ []) : ∀ p ∈ dictAppend d k v, p.2 ≠ [] := by
  induction d with
  | nil =>
    intro p hp
    unfold dictAppend at hp
    rcases List.mem_singleton.mp hp with rfl
    simp
  | cons q rest ih =>
    intro p hp
    unfold dictAppend at hp
    by_cases hq : q.1 = k
    · rw [if_pos hq] at hp
      rcases List.mem_cons.mp hp with rfl | hp'
      · simp
      · exact h p (List.mem_cons_of_mem q hp')
    · rw [if_neg hq] at hp
      rcases List.mem_cons.mp hp with rfl | hp'
      · exact h p (List.mem_cons_self p rest)
      · exact ih (fun r hr => h r (List.mem_cons_of_mem q hr)) p hp'

theorem foldl_addItem_ne_nil : ∀ (items : List CatalogItem)
    (d : List (String × List String)), (∀ p ∈ d, p.2 ≠ []) →
    ∀ p ∈ items.foldl addItem d, p.2 ≠ []
  | [], _, h => h
  | it :: rest, d, h => by
    rw [List.foldl_cons]
    apply foldl_addItem_ne_nil rest
    intro q hq
    obtain ⟨ob, oid⟩ := it
    rcases ob with _ | o
    · exact h q hq
    · rcases oid with _ | i
      · exact h q hq
      · exact dictAppend_ne_nil d o i h q hq

/-- Counterexample to claim C1 as stated: a catalog holding the same
(owner, id) record twice yields an id list with a duplicate, which is
neither strictly ascending nor duplicate-free. -/
theorem c1_group_by_owner_counterexample :
    build_models_by_owner (some dupCatalog) = [("x", ["a", "a"])] ∧
    ¬ List.Sorted strlt ["a", "a"] ∧
    ¬ (["a", "a"] : List String).Nodup :=
  ⟨by decide, by decide, by decide⟩

/-- Claim C1 amended: for every catalog, every owner key of group_by_owner
maps to a nonempty id list sorted in non-decreasing lexicographic order
(duplicate records are kept, so the order is not strict in general). -/
theorem c1_group_by_owner_sorted (data : Option (List CatalogItem))
    (owner : String) (ids : List String)
    (h : (owner, ids) ∈ build_models_by_owner data) :
    ids ≠ [] ∧ List.Sorted strle ids := by
  unfold build_models_by_owner at h
  rcases List.mem_map.mp h with ⟨p, hp, heq⟩
  have hp2 : p.2 ≠ [] :=
    foldl_addItem_ne_nil _ [] (fun q hq => absurd hq (List.not_mem_nil q)) p hp
  have hids : ids = List.insertionSort strle p.2 := (congrArg Prod.snd heq).symm
  constructor
  · rw [hids]
    intro hnil
    apply hp2
    have hl := congrArg List.length hnil
    rw [(List.perm_insertionSort strle p.2).length_eq] at hl
    exact List.length_eq_zero.mp hl
  · rw [hids]
    exact List.sorted_insertionSort strle p.2

/-- Witness for C1's amended theorem at a concrete input. -/
theorem c1_group_by_owner_sorted_witness :
    (["a", "b"] : List String) ≠ [] ∧ List.Sorted strle ["a", "b"] :=
  c1_group_by_owner_sorted (some witCatalog) "x" ["a", "b"] (by decide)

theorem envSet_self (e : String → Option String) (k v : String) :
    envSet e k v k = some v := by
  unfold envSet
  rw [if_pos rfl]

theorem envSet_ne (e : String → Option String) (k v q : String)
    (h : q ≠ k) : envSet e k v q = e q := by
  unfold envSet
  rw [if_neg h]

theorem envSetModel_ne (c : Config) (k : ModelKey)
    (e : String → Option String) (q : String) (h : q ≠ envModelName k) :
    envSetModel c k e q = e q := by
  unfold envSetModel
  rcases (c.models.get k).id with _ | s
  · rfl
  · show (if s = "" then e else envSet e (envModelName k) s) q = e q
    by_cases hs : s = ""
    · rw [if_pos hs]
    · rw [if_neg hs]
      exact envSet_ne e (envModelName k) s q h

theorem loadToggle_binary (ts : List (String × Json)) (name : String)
    (cur : Int) (h : cur = 0 ∨ cur = 1) :
    loadToggle ts name cur = 0 ∨ loadToggle ts name cur = 1 := by
  unfold loadToggle
  split
  · split
    · right; rfl
    · left; rfl
  · split
    · assumption
    · exact h
  · exact h

theorem default_toggles_binary (t : ToggleKey) :
    default_config.toggles.get t = 0 ∨ default_config.toggles.get t = 1 := by
  cases t
  · left; rfl
  · right; rfl
  · right; rfl

theorem loadToggles_binary (fields : List (String × Json)) (t : ToggleKey) :
    (loadToggles fields default_config.toggles).get t = 0 ∨
    (loadToggles fields default_config.toggles).get t = 1 := by
  unfold loadToggles
  split
  · cases t
    · exact loadToggle_binary _ _ _ (Or.inl rfl)
    · exact loadToggle_binary _ _ _ (Or.inr rfl)
    · exact loadToggle_binary _ _ _ (Or.inr rfl)
  · exact default_toggles_binary t

theorem load_config_toggles_binary (data : Option Json) (t : ToggleKey) :
    (load_config data).toggles.get t = 0 ∨
    (load_config data).toggles.get t = 1 := by
  rcases data with _ | j
  · exact default_toggles_binary t
  · cases j with
    | obj fields => exact loadToggles_binary fields t
    | null => exact default_toggles_binary t
    | bool b => exact default_toggles_binary t
    | num n => exact default_toggles_binary t
    | str s => exact default_toggles_binary t
    | arr l => exact default_toggles_binary t

theorem flipToggle_binary (c : Config) (t t' : ToggleKey)
    (h : c.toggles.get t' = 0 ∨ c.toggles.get t' = 1) :
    (flipToggle c t).toggles.get t' = 0 ∨
    (flipToggle c t).toggles.get t' = 1 := by
  unfold flipToggle
  cases t <;> cases t' <;>
    first
    | exact h
    | (dsimp only [Toggles.get, Toggles.set]
       split
       · left; rfl
       · right; rfl)

theorem applyFlips_binary : ∀ (flips : List ToggleKey) (c : Config)
    (t : ToggleKey), (∀ t', c.toggles.get t' = 0 ∨ c.toggles.get t' = 1) →
    (applyFlips c flips).toggles.get t = 0 ∨
    (applyFlips c flips).toggles.get t = 1
  | [], _, t, h => h t
  | f :: rest, c, t, h =>
    applyFlips_binary rest (flipToggle c f) t
      (fun t' => flipToggle_binary c f t' (h t'))

theorem build_env_toggle (c : Config) (masked : Bool)
    (base : String → Option String) (t : ToggleKey) :
    build_env c masked base t.name = some (toString (c.toggles.get t)) := by
  cases t
  · unfold build_env
    rw [envSet_ne _ _ _ _ (by decide), envSet_ne _ _ _ _ (by decide)]
    exact envSet_self _ _ _
  · unfold build_env
    rw [envSet_ne _ _ _ _ (by decide)]
    exact envSet_self _ _ _
  · exact envSet_self _ _ _

theorem build_env_base_url (c : Config) (masked : Bool)
    (base : String → Option String) :
    build_env c masked base "ANTHROPIC_BASE_URL" = some c.base_url := by
  unfold build_env
  rw [envSet_ne _ _ _ _ (by decide), envSet_ne _ _ _ _ (by decide),
    envSet_ne _ _ _ _ (by decide),
    envSetModel_ne _ _ _ _ (by decide), envSetModel_ne _ _ _ _ (by decide),
    envSetModel_ne _ _ _ _ (by decide), envSet_ne _ _ _ _ (by decide)]
  exact envSet_self _ _ _

theorem build_env_auth_token (c : Config) (base : String → Option String) :
    build_env c false base "ANTHROPIC_AUTH_TOKEN" = some c.api_key := by
  unfold build_env
  rw [envSet_ne _ _ _ _ (by decide), envSet_ne _ _ _ _ (by decide),
    envSet_ne _ _ _ _ (by decide),
    envSetModel_ne _ _ _ _ (by decide), envSetModel_ne _ _ _ _ (by decide),
    envSetModel_ne _ _ _ _ (by decide)]
  exact envSet_self _ _ _

theorem envChain_model (c : Config) (k : ModelKey)
    (e : String → Option String) (he : e (envModelName k) = none) :
    ((envSetModel c k e) (envModelName k)).isSome =
      truthyStr (c.models.get k).id := by
  unfold envSetModel
  rcases hid : (c.models.get k).id with _ | s
  · show (e (envModelName k)).isSome = truthyStr none
    rw [he]; rfl
  · show ((if s = "" then e else envSet e (envModelName k) s)
        (envModelName k)).isSome = truthyStr (some s)
    by_cases hs : s = ""
    · rw [if_pos hs, he, hs]
      rfl
    · rw [if_neg hs, envSet_self]
      unfold truthyStr entryFalsy
      simp [hs]

theorem build_env_model (c : Config) (masked : Bool) (k : ModelKey) :
    (build_env c masked emptyEnv (envModelName k)).isSome =
      truthyStr (c.models.get k).id := by
  cases k
  · unfold build_env
    rw [envSet_ne _ _ _ _ (by decide), envSet_ne _ _ _ _ (by decide),
      envSet_ne _ _ _ _ (by decide),
      envSetModel_ne _ _ _ _ (by decide), envSetModel_ne _ _ _ _ (by decide)]
    refine envChain_model c .opus _ ?_
    rw [envSet_ne _ _ _ _ (by decide), envSet_ne _ _ _ _ (by decide)]
    rfl
  · unfold build_env
    rw [envSet_ne _ _ _ _ (by decide), envSet_ne _ _ _ _ (by decide),
      envSet_ne _ _ _ _ (by decide), envSetModel_ne _ _ _ _ (by decide)]
    refine envChain_model c .sonnet _ ?_
    rw [envSetModel_ne _ _ _ _ (by decide), envSet_ne _ _ _ _ (by decide),
      envSet_ne _ _ _ _ (by decide)]
    rfl
  · unfold build_env
    rw [envSet_ne _ _ _ _ (by decide), envSet_ne _ _ _ _ (by decide),
      envSet_ne _ _ _ _ (by decide)]
    refine envChain_model c .haiku _ ?_
    rw [envSetModel_ne _ _ _ _ (by decide), envSetModel_ne _ _ _ _ (by decide),
      envSet_ne _ _ _ _ (by decide), envSet_ne _ _ _ _ (by decide)]
    rfl

/-- Counterexample to claim C8 as stated: a loaded configuration whose opus
slot id is the empty string (non-null) gets no override variable, because
build_env tests Python truthiness, not nullness. -/
theorem c8_env_counterexample :
    ((load_config dataEmptyId).models.get .opus).id ≠ none ∧
    build_env (load_config dataEmptyId) false emptyEnv
      "ANTHROPIC_DEFAULT_OPUS_MODEL" = none := by
  constructor
  · decide
  · decide

/-- Claim C8 amended: for every configuration produced by loading and any
sequence of toggle flips, the environment projection holds one variable per
toggle valued exactly "0" or "1", the fixed base-URL and auth-token keys,
and one override variable per slot exactly when that slot's id is non-null
and non-empty. -/
theorem c8_env_projection (data : Option Json) (flips : List ToggleKey) :
    (∀ t : ToggleKey,
      build_env (applyFlips (load_config data) flips) false emptyEnv t.name =
          some "0" ∨
      build_env (applyFlips (load_config data) flips) false emptyEnv t.name =
          some "1") ∧
    build_env (applyFlips (load_config data) flips) false emptyEnv
        "ANTHROPIC_BASE_URL" =
      some (applyFlips (load_config data) flips).base_url ∧
    build_env (applyFlips (load_config data) flips) false emptyEnv
        "ANTHROPIC_AUTH_TOKEN" =
      some (applyFlips (load_config data) flips).api_key ∧
    (∀ k : ModelKey,
      (build_env (applyFlips (load_config data) flips) false emptyEnv
          (envModelName k)).isSome =
        truthyStr ((applyFlips (load_config data) flips).models.get k).id) := by
  refine ⟨?_, build_env_base_url _ _ _, build_env_auth_token _ _,
    fun k => build_env_model _ _ k⟩
  intro t
  rw [build_env_toggle]
  rcases applyFlips_binary flips (load_config data) t
      (load_config_toggles_binary data) with h | h
  · left
    rw [h]
    rfl
  · right
    rw [h]
    rfl

/-- Claim C9: with color on and a nonempty palette, the pulse style draws
every non-space glyph at its unshifted position, with color index
(col + row + frame / 3) mod palette size (integer division) and bold
exactly when (frame + col + row) mod 20 < 10. -/
theorem c9_pulse_cells (lines : List String) (nPairs frame : Nat)
    (startY width : Int) (h : nPairs ≠ 0) :
    render_style_pulse lines true nPairs frame startY width =
      (glyphCells lines).map fun g =>
        { y := startY + (g.1 : Int)
          x := renderBaseX width lines + (g.2.1 : Int)
          ch := g.2.2
          colorIdx := some ((g.2.1 + g.1 + frame / 3) % nPairs)
          bold := decide ((frame + g.2.1 + g.1) % 20 < 10) } := by
  unfold render_style_pulse glyphCells
  rw [List.map_flatMap]
  apply List.flatMap_congr
  intro rl _
  rw [List.map_filterMap]
  apply List.filterMap_congr
  intro cc _
  by_cases hc : cc.2 = ' '
  · rw [if_pos hc, if_pos hc]
    rfl
  · rw [if_neg hc, if_neg hc]
    have hguard : (true && (nPairs != 0)) = true := by
      simp [h]
    rw [hguard]
    simp only [if_true]
    rfl

/-- Witness for C9 at a concrete input. -/
theorem c9_pulse_cells_witness :
    render_style_pulse ["#", " #"] true 5 7 2 10 =
      (glyphCells ["#", " #"]).map fun g =>
        { y := 2 + (g.1 : Int)
          x := renderBaseX 10 ["#", " #"] + (g.2.1 : Int)
          ch := g.2.2
          colorIdx := some ((g.2.1 + g.1 + 7 / 3) % 5)
          bold := decide ((7 + g.2.1 + g.1) % 20 < 10) } :=
  c9_pulse_cells ["#", " #"] 5 7 2 10 (by decide)

end CCode
